import Mathlib

/-!
Verification of the voting-core of `urna_eletronica_rpi.py` (Urna Eletrônica, Raspberry Pi).

The embedding below translates the Model (SQLite-backed vote store) and the
Controller (voter-session event handlers) of the source into pure Lean
definitions:

* the `votos` table is a list of `VotoRow` (one row per INSERT, in insertion
  order); `Model.gravar_voto` becomes a list append computing the same
  `(candidato_val, voto_tipo)` pair as the source;
* `Model.contar_votos` (`SELECT candidato_id, COUNT(*) FROM votos GROUP BY
  candidato_id`) becomes occurrence counting over the `candidato_id` column,
  with the key set given by deduplication (GROUP BY result order is not
  semantically significant);
* the Controller state is the pair of the scratch string `self.numero` and the
  vote store; the Tkinter callbacks `on_digit`, `on_corrige`, `on_branco`,
  `on_confirma` and `_reset_after_vote` become state transformers.  View-only
  effects (labels, photos, message boxes, sound) have no state and are dropped;
  the `messagebox.askyesno` answer of the null-vote path is passed in as a
  boolean, and the fact that `on_confirma` invoked
  `animacao_fim(callback=self._reset_after_vote)` is returned as a boolean flag
  (the reset itself runs later, in the scheduled callback).
* the admin CSV export `salvar` (inside `on_relatorio`) becomes a function
  producing the list of rows handed to `csv.writer.writerow`; a row cell is
  either a string or an integer, exactly as in the source.

The schema created by `Model._ensure_db` for a fresh database is modelled
separately (`ensure_db_votos_columns` etc.) because the column set it creates
does not match the column list named by the INSERT of `gravar_voto`.
-/

/-- MAX_DIGITS = 2 (source line 44). -/
def MAX_DIGITS : Nat := 2

/-- A row of the `candidatos` table: (id, nome, partido). -/
structure Candidato where
  id : Nat
  nome : String
  partido : String
deriving DecidableEq

/-- `Model.get_candidato`: `SELECT id, nome, partido FROM candidatos WHERE id = ?`,
returning the matching row or `None`. -/
def get_candidato (registry : List Candidato) (id_ : Nat) : Option Candidato :=
  registry.find? (fun c => c.id == id_)

/-- A row of the `votos` table as written by the INSERT of `Model.gravar_voto`:
`(candidato_id, voto_tipo)`.  `candidato_id` is NULL (`none`) for BRANCO and
for NULO votes alike. -/
structure VotoRow where
  candidato_id : Option Nat
  voto_tipo : String
deriving DecidableEq

/-- `Model.gravar_voto(candidato_id)`: if `candidato_id is None` the row is
`(NULL, "BRANCO")`, otherwise `(candidato_id, "VALIDO")`; the row is appended
to the `votos` table. -/
def gravar_voto (ledger : List VotoRow) (candidato_id : Option Nat) : List VotoRow :=
  match candidato_id with
  | none => ledger ++ [⟨none, "BRANCO"⟩]
  | some cid => ledger ++ [⟨some cid, "VALIDO"⟩]

/-- The `candidato_id` column of the `votos` table. -/
def votos_column (ledger : List VotoRow) : List (Option Nat) :=
  ledger.map (fun r => r.candidato_id)

/-- `Model.contar_votos`: `SELECT candidato_id, COUNT(*) FROM votos GROUP BY
candidato_id`, read back as the dict `{candidato_id: count}`.  `contar_votos
ledger k` is the count the dict associates to key `k` (0 when `k` is absent). -/
def contar_votos (ledger : List VotoRow) (k : Option Nat) : Nat :=
  (votos_column ledger).countP (fun x => decide (x = k))

/-- The key set of the dict returned by `Model.contar_votos`: the distinct
values of the `candidato_id` column (GROUP BY grouping keys; order incidental). -/
def tally_keys (ledger : List VotoRow) : List (Option Nat) :=
  (votos_column ledger).dedup

/-- The `(key, count)` pairs of the dict returned by `Model.contar_votos`
(`votos.items()` in `on_relatorio`). -/
def tally_items (ledger : List VotoRow) : List (Option Nat × Nat) :=
  (tally_keys ledger).map (fun k => (k, contar_votos ledger k))

/-- Columns of the `votos` table created by `Model._ensure_db` on a fresh
database (source lines 67-73): `id`, `candidato_id`, `timestamp` — and no
`voto_tipo` column. -/
def ensure_db_votos_columns : List String := ["id", "candidato_id", "timestamp"]

/-- Columns named by the INSERT statement of `Model.gravar_voto`
(source lines 98-101): `INSERT INTO votos (candidato_id, voto_tipo) VALUES (?, ?)`. -/
def gravar_voto_insert_columns : List String := ["candidato_id", "voto_tipo"]

/-- SQLite accepts an INSERT only when every column it names exists in the
table's schema; otherwise it raises `OperationalError: table has no column
named ...` and writes nothing. -/
def sqlite_insert_ok (tableCols insertCols : List String) : Bool :=
  insertCols.all (fun c => tableCols.contains c)

/-- `Model.gravar_voto` executed against the `votos` table as freshly created
by `Model._ensure_db`: the INSERT is checked against that schema; on failure
the table is left unchanged and the SQLite error is raised. -/
def gravar_voto_fresh (rows : List VotoRow) (candidato_id : Option Nat) :
    Except String (List VotoRow) :=
  if sqlite_insert_ok ensure_db_votos_columns gravar_voto_insert_columns then
    Except.ok (gravar_voto rows candidato_id)
  else
    Except.error "table votos has no column named voto_tipo"

/-- Python `str.isdigit` on the strings this program builds: nonempty and all
characters decimal digits. -/
def str_isdigit (s : String) : Bool :=
  !s.data.isEmpty && s.data.all (fun c => c.isDigit)

/-- Python `int(s)` for a string of decimal digits. -/
def str_toNat (s : String) : Nat :=
  s.data.foldl (fun n c => n * 10 + (c.toNat - Char.toNat (Char.ofNat 48))) 0

/-- Controller state: the scratch input `self.numero` and the vote store the
controller's `self.model` writes to. -/
structure ControllerState where
  numero : String
  ledger : List VotoRow
deriving DecidableEq

/-- Result of one `Controller.on_confirma` call: the successor state, and
whether `animacao_fim(callback=self._reset_after_vote)` was invoked (i.e.
whether a reset of `numero` was scheduled to run after the end animation). -/
structure ConfirmaResult where
  state : ControllerState
  resetScheduled : Bool
deriving DecidableEq

/-- `Controller.on_digit(digit)`: ignore the key when `len(self.numero) >=
MAX_DIGITS`, otherwise append the digit character.  The candidate lookup done
when the number becomes complete only updates the display. -/
def on_digit (s : ControllerState) (digit : Char) : ControllerState :=
  if MAX_DIGITS ≤ s.numero.length then s
  else { s with numero := s.numero.push digit }

/-- `Controller.on_corrige`: clear `self.numero`; the display is cleared; the
vote store is not touched. -/
def on_corrige (s : ControllerState) : ControllerState :=
  { s with numero := "" }

/-- `Controller.on_branco`: overwrite `self.numero` with the sentinel string
`"BRANCO"`, discarding any digits already typed. -/
def on_branco (s : ControllerState) : ControllerState :=
  { s with numero := "BRANCO" }

/-- `Controller._reset_after_vote`: clear `self.numero` for the next voter
(runs as the callback scheduled by `animacao_fim`). -/
def reset_after_vote (s : ControllerState) : ControllerState :=
  { s with numero := "" }

/-- `Controller.on_confirma`: guard on empty input; `"BRANCO"` records a blank
vote; otherwise, for an all-digits number, a registered candidate records a
valid vote, an unregistered one asks `askyesno` (answer passed in as
`nullAnswer`) and records a null vote only on an affirmative answer; a
non-digit non-BRANCO `numero` is rejected.  `self.numero` is never modified
here: the reset only happens in the `_reset_after_vote` callback scheduled via
`animacao_fim` on the three recording paths. -/
def on_confirma (registry : List Candidato) (nullAnswer : Bool) (s : ControllerState) :
    ConfirmaResult :=
  if s.numero = "" then ⟨s, false⟩
  else if s.numero = "BRANCO" then
    ⟨{ s with ledger := gravar_voto s.ledger none }, true⟩
  else if str_isdigit s.numero then
    match get_candidato registry (str_toNat s.numero) with
    | some _ => ⟨{ s with ledger := gravar_voto s.ledger (some (str_toNat s.numero)) }, true⟩
    | none =>
        if nullAnswer then ⟨{ s with ledger := gravar_voto s.ledger none }, true⟩
        else ⟨s, false⟩
  else ⟨s, false⟩

/-- A cell handed to `csv.writer.writerow` by `salvar`: the source passes
strings and Python ints. -/
inductive Cell where
  | str (s : String)
  | num (n : Nat)
deriving DecidableEq

/-- The dict-with-default lookup `candidatos.get(cid, ("<desconhecido>", ""))`
of `on_relatorio`/`salvar`, where `candidatos` maps each registered id to
`(nome, partido)`. -/
def candidatos_nome_partido (cands : List Candidato) (cid : Nat) : String × String :=
  match cands.find? (fun c => c.id == cid) with
  | some c => (c.nome, c.partido)
  | none => ("<desconhecido>", "")

/-- One data row written by `salvar` for one `(key, count)` item of the tally
dict: `["BRANCO", "BRANCO", "", count]` when the key is NULL, otherwise
`[cid, nome, partido, count]`. -/
def relatorio_row (cands : List Candidato) (item : Option Nat × Nat) : List Cell :=
  match item with
  | (none, count) => [Cell.str "BRANCO", Cell.str "BRANCO", Cell.str "", Cell.num count]
  | (some cid, count) =>
      [Cell.num cid, Cell.str (candidatos_nome_partido cands cid).1,
        Cell.str (candidatos_nome_partido cands cid).2, Cell.num count]

/-- The header row written first by `salvar`. -/
def csv_header : List Cell :=
  [Cell.str "candidato_id", Cell.str "nome", Cell.str "partido", Cell.str "votos"]

/-- The full sequence of rows `salvar` writes to the CSV file: the header,
then one row per item of the tally dict — and nothing else (the zero-count
candidate lines of `on_relatorio` go to the on-screen Text widget only). -/
def salvar_rows (ledger : List VotoRow) (cands : List Candidato) : List (List Cell) :=
  csv_header :: (tally_items ledger).map (relatorio_row cands)

/-- The demo registry seeded at program start (source lines 447-450). -/
def demo_candidatos : List Candidato :=
  [⟨13, "Lula", "PT"⟩, ⟨22, "Bolsonaro", "PL"⟩]

/-- Replaying a list of `gravar_voto` calls against an initially empty
`votos` table. -/
def run_appends (choices : List (Option Nat)) : List VotoRow :=
  choices.foldl gravar_voto []

/-- The vote store after the `gravar_voto` calls for the ballot sequence
[Valid(13), Blank, Valid(13), Null]: the Blank confirmation calls
`gravar_voto(None)` and the accepted Null confirmation also calls
`gravar_voto(None)`. -/
def C1_ledger : List VotoRow :=
  gravar_voto (gravar_voto (gravar_voto (gravar_voto [] (some 13)) none) (some 13)) none

/-- A vote store holding one valid vote for 13 and one blank vote. -/
def blank_and_13_ledger : List VotoRow :=
  gravar_voto (gravar_voto [] (some 13)) none

/-! Helper lemmas. -/

theorem gravar_voto_length (l : List VotoRow) (c : Option Nat) :
    (gravar_voto l c).length = l.length + 1 := by
  cases c <;> simp [gravar_voto]

theorem foldl_gravar_voto_length (choices : List (Option Nat)) (init : List VotoRow) :
    (choices.foldl gravar_voto init).length = init.length + choices.length := by
  induction choices generalizing init with
  | nil => simp
  | cons c cs ih =>
      rw [List.foldl_cons, ih, gravar_voto_length, List.length_cons]
      omega

theorem tally_sum_eq_length (l : List VotoRow) :
    ((tally_keys l).map (contar_votos l)).sum = l.length := by
  have h := List.sum_map_count_dedup_eq_length (votos_column l)
  have h2 : (votos_column l).length = l.length := List.length_map _ _
  rw [← h2]
  exact h

theorem string_push_data (s : String) (c : Char) : (s.push c).data = s.data ++ [c] := by
  cases s
  rfl

theorem string_length_push (s : String) (c : Char) : (s.push c).length = s.length + 1 := by
  show (s.push c).data.length = s.data.length + 1
  rw [string_push_data]
  simp

theorem foldl_on_digit (cs : List Char) (s : ControllerState)
    (h : s.numero.length + cs.length ≤ MAX_DIGITS) :
    cs.foldl on_digit s = ⟨⟨s.numero.data ++ cs⟩, s.ledger⟩ := by
  induction cs generalizing s with
  | nil =>
      simp only [List.foldl_nil, List.append_nil]
  | cons c cs ih =>
      rw [List.length_cons] at h
      have hlt : ¬ MAX_DIGITS ≤ s.numero.length := by omega
      have hstep : on_digit s c = ⟨s.numero.push c, s.ledger⟩ := by
        simp [on_digit, hlt]
      have hlen : (ControllerState.mk (s.numero.push c) s.ledger).numero.length + cs.length
          ≤ MAX_DIGITS := by
        show (s.numero.push c).length + cs.length ≤ MAX_DIGITS
        rw [string_length_push]
        omega
      rw [List.foldl_cons, hstep, ih _ hlen]
      simp [string_push_data]

/-! Claim theorems. -/

/-- C1 counterexample: for the registry {13, 22} and the confirmed ballots
[Valid(13), Blank, Valid(13), Null], the tally of `Model.contar_votos` has
exactly the two keys `some 13` and `none`, and the single `none` bucket counts
2 — blank and null ballots are counted under one and the same key, so there is
no pair of distinct Blank/Null keys each mapped to 1, contrary to the claim. -/
theorem C1_blank_null_same_key_cex :
    contar_votos C1_ledger none = 2
    ∧ contar_votos C1_ledger (some 13) = 2
    ∧ tally_keys C1_ledger = [some 13, none]
    ∧ (tally_keys C1_ledger).length = 2 := by
  decide

/-- C1 (amended): for the registry containing candidates 13 and 22 and the
confirmed ballots [Valid(13), Blank, Valid(13), Null], `Model.contar_votos`
returns a mapping with two entries: candidate 13 mapped to 2 and the single
NULL `candidato_id` bucket mapped to 2 — Blank and Null ballots are merged
under that one key, and candidate 22 is absent (count 0). -/
theorem C1_tally_merges_blank_and_null :
    tally_keys C1_ledger = [some 13, none]
    ∧ contar_votos C1_ledger (some 13) = 2
    ∧ contar_votos C1_ledger none = 2
    ∧ contar_votos C1_ledger (some 22) = 0 := by
  decide

/-- C2: two back-to-back `on_confirma` invocations for one completed session
(`numero = "13"`, candidate 13 registered) with no intervening
`_reset_after_vote` append TWO valid-vote rows to the ledger — `on_confirma`
never clears `numero` itself, the reset only runs later in the callback
scheduled via `animacao_fim`, so nothing prevents the second invocation from
recording a second vote. -/
theorem C2_repeated_confirma_appends_twice :
    ((on_confirma demo_candidatos true
        (on_confirma demo_candidatos true ⟨"13", []⟩).state).state).ledger
      = [⟨some 13, "VALIDO"⟩, ⟨some 13, "VALIDO"⟩] := by
  decide

/-- C3: against the `votos` table as created by `Model._ensure_db` on a fresh
database (columns `id`, `candidato_id`, `timestamp` only), every
`Model.gravar_voto` call fails — its INSERT names the `voto_tipo` column, which
that schema does not contain — and inserts no row. -/
theorem C3_fresh_db_insert_always_fails (rows : List VotoRow) (cid : Option Nat) :
    gravar_voto_fresh rows cid
      = Except.error "table votos has no column named voto_tipo" := rfl

/-- C4: for every sequence of `gravar_voto` calls performed since the ledger
was empty, the counts of `Model.contar_votos` summed over all keys of the
tally equal the number of those calls — no confirmed ballot is lost and none
is counted twice. -/
theorem C4_tally_total_equals_appends (choices : List (Option Nat)) :
    ((tally_keys (run_appends choices)).map (contar_votos (run_appends choices))).sum
      = choices.length := by
  rw [tally_sum_eq_length]
  show (choices.foldl gravar_voto []).length = choices.length
  rw [foldl_gravar_voto_length]
  simp

/-- C5: for every registry and every registered candidate number N, starting
from an idle session (`numero = ""`), entering exactly MAX_DIGITS digits that
spell N and then firing `on_confirma` appends exactly one `(N, "VALIDO")` row
to the ledger, schedules the end-of-session reset, and the scheduled
`_reset_after_vote` leaves the session input empty again. -/
theorem C5_valid_vote_flow (registry : List Candidato) (l : List VotoRow) (ds : String)
    (N : Nat) (c : Candidato) (nullAnswer : Bool)
    (hlen : ds.length = MAX_DIGITS)
    (hdig : str_isdigit ds = true)
    (hN : str_toNat ds = N)
    (hreg : get_candidato registry N = some c) :
    (on_confirma registry nullAnswer (ds.data.foldl on_digit ⟨"", l⟩)).state.ledger
        = l ++ [⟨some N, "VALIDO"⟩]
    ∧ (on_confirma registry nullAnswer (ds.data.foldl on_digit ⟨"", l⟩)).resetScheduled = true
    ∧ (reset_after_vote
        (on_confirma registry nullAnswer (ds.data.foldl on_digit ⟨"", l⟩)).state).numero
        = "" := by
  have hfold : ds.data.foldl on_digit ⟨"", l⟩ = ⟨ds, l⟩ := by
    have hb : (ControllerState.mk "" l).numero.length + ds.data.length ≤ MAX_DIGITS := by
      show ("" : String).length + ds.data.length ≤ MAX_DIGITS
      have : ds.data.length = ds.length := rfl
      rw [this, hlen]
      simp
    simpa using foldl_on_digit ds.data ⟨"", l⟩ hb
  have hne : ds ≠ "" := by
    intro e
    rw [e] at hlen
    exact absurd hlen (by decide)
  have hnb : ds ≠ "BRANCO" := by
    intro e
    rw [e] at hdig
    exact absurd hdig (by decide)
  rw [hfold]
  simp [on_confirma, hne, hnb, hdig, hN, hreg, gravar_voto, reset_after_vote]

/-- C5 witness: the concrete run for the demo registry and the digits "13". -/
theorem C5_valid_vote_flow_witness :
    ("13" : String).length = MAX_DIGITS
    ∧ (on_confirma demo_candidatos false (("13" : String).data.foldl on_digit ⟨"", []⟩)).state.ledger
        = [] ++ [⟨some 13, "VALIDO"⟩]
    ∧ (on_confirma demo_candidatos false
        (("13" : String).data.foldl on_digit ⟨"", []⟩)).resetScheduled = true
    ∧ (reset_after_vote
        (on_confirma demo_candidatos false
          (("13" : String).data.foldl on_digit ⟨"", []⟩)).state).numero = "" := by
  have h := C5_valid_vote_flow demo_candidatos [] "13" 13 ⟨13, "Lula", "PT"⟩ false
    (by decide) (by decide) (by decide) (by decide)
  exact ⟨by decide, h.1, h.2.1, h.2.2⟩

/-- C6 counterexample: with the demo registry, a completed session holding the
unmatched number "99", after `on_confirma` with a negative answer to the
null-vote question, appends nothing — but the session digits are NOT cleared:
`numero` is still "99", not "" as the claim states. -/
theorem C6_declined_keeps_digits_cex :
    (on_confirma demo_candidatos false ⟨"99", []⟩).state.ledger = []
    ∧ (on_confirma demo_candidatos false ⟨"99", []⟩).state.numero = "99"
    ∧ ¬ (on_confirma demo_candidatos false ⟨"99", []⟩).state.numero = "" := by
  decide

/-- C6 (amended): for every session in the complete state whose digits match
no registered candidate, firing `on_confirma` and answering the follow-up
null-vote confirmation negatively appends zero ledger records and leaves the
session state — digits included — completely unchanged (the digits are NOT
cleared; the voter must press corrige, or confirm again). -/
theorem C6_null_declined_no_append_digits_kept (registry : List Candidato)
    (s : ControllerState)
    (hne : s.numero ≠ "") (hnb : s.numero ≠ "BRANCO")
    (hdig : str_isdigit s.numero = true)
    (hreg : get_candidato registry (str_toNat s.numero) = none) :
    on_confirma registry false s = ⟨s, false⟩ := by
  simp [on_confirma, hne, hnb, hdig, hreg]

/-- C6 witness: the amended statement at the concrete unmatched number "99". -/
theorem C6_null_declined_witness :
    ("99" : String) ≠ ""
    ∧ ("99" : String) ≠ "BRANCO"
    ∧ str_isdigit "99" = true
    ∧ get_candidato demo_candidatos (str_toNat "99") = none
    ∧ on_confirma demo_candidatos false ⟨"99", []⟩ = ⟨⟨"99", []⟩, false⟩ :=
  ⟨by decide, by decide, by decide, by decide,
    C6_null_declined_no_append_digits_kept demo_candidatos ⟨"99", []⟩
      (by decide) (by decide) (by decide) (by decide)⟩

/-- C7 counterexample: with the demo registry {13, 22} and a single vote for
13, `salvar` writes exactly the header and the row for 13 — no zero-count row
for the registered candidate 22 appears, contrary to the claim. -/
theorem C7_no_zero_count_rows_cex :
    salvar_rows (gravar_voto [] (some 13)) demo_candidatos
      = [csv_header, [Cell.num 13, Cell.str "Lula", Cell.str "PT", Cell.num 1]]
    ∧ [Cell.num 22, Cell.str "Bolsonaro", Cell.str "PL", Cell.num 0]
        ∉ salvar_rows (gravar_voto [] (some 13)) demo_candidatos := by
  decide

/-- C7 (amended): the CSV export writes the header
`candidato_id,nome,partido,votos` followed by exactly one row per distinct key
present in the tally — the NULL key (under which both Blank and Null ballots
fall) rendered with the literal token BRANCO in both the id and name columns —
and nothing else: registered candidates absent from the tally get NO
zero-count row, and every row carrying a numeric candidate id corresponds to a
key present in the tally, so Null votes are never attributed to a candidate's
row. -/
theorem C7_export_structure (l : List VotoRow) (cands : List Candidato) :
    (salvar_rows l cands).head? = some csv_header
    ∧ (salvar_rows l cands).length = (tally_keys l).length + 1
    ∧ (none ∈ tally_keys l →
        [Cell.str "BRANCO", Cell.str "BRANCO", Cell.str "", Cell.num (contar_votos l none)]
          ∈ salvar_rows l cands)
    ∧ (∀ row, row ∈ (salvar_rows l cands).tail →
        ∀ n : Nat, row.head? = some (Cell.num n) → some n ∈ tally_keys l) := by
  refine ⟨rfl, ?_, ?_, ?_⟩
  · simp [salvar_rows, tally_items]
  · intro h
    have h1 : ((none : Option Nat), contar_votos l none) ∈ tally_items l :=
      List.mem_map_of_mem _ h
    have h2 : relatorio_row cands (none, contar_votos l none)
        ∈ (tally_items l).map (relatorio_row cands) := List.mem_map_of_mem _ h1
    exact List.mem_cons_of_mem _ h2
  · intro row hrow n hn
    have hrow2 : row ∈ (tally_items l).map (relatorio_row cands) := hrow
    obtain ⟨item, hitem, heq⟩ := List.mem_map.mp hrow2
    obtain ⟨k, cnt⟩ := item
    obtain ⟨kk, hkk, hpair⟩ := List.mem_map.mp hitem
    have hfst : kk = k := congrArg Prod.fst hpair
    cases k with
    | none =>
        rw [← heq] at hn
        simp [relatorio_row] at hn
    | some cid =>
        rw [← heq] at hn
        simp only [relatorio_row, List.head?] at hn
        have hcid : cid = n := by
          have := Option.some.inj hn
          exact Cell.num.inj this
        rw [← hcid]
        exact hfst ▸ hkk

/-- C7 witness: the amended statement at a ledger holding one vote for 13 and
one blank vote, against the demo registry. -/
theorem C7_export_structure_witness :
    (salvar_rows blank_and_13_ledger demo_candidatos).head? = some csv_header
    ∧ (salvar_rows blank_and_13_ledger demo_candidatos).length
        = (tally_keys blank_and_13_ledger).length + 1
    ∧ [Cell.str "BRANCO", Cell.str "BRANCO", Cell.str "",
        Cell.num (contar_votos blank_and_13_ledger none)]
        ∈ salvar_rows blank_and_13_ledger demo_candidatos
    ∧ some 13 ∈ tally_keys blank_and_13_ledger := by
  have h := C7_export_structure blank_and_13_ledger demo_candidatos
  exact ⟨h.1, h.2.1, h.2.2.1 (by decide),
    h.2.2.2 [Cell.num 13, Cell.str "Lula", Cell.str "PT",
      Cell.num (contar_votos blank_and_13_ledger (some 13))] (by decide) 13 rfl⟩

/-- C8: from every session state, firing branco and then confirma appends
exactly one `(NULL, "BRANCO")` row — a blank record, not a "VALIDO" one —
regardless of any digits entered before branco was pressed, and schedules the
end-of-session reset. -/
theorem C8_branco_then_confirma_blank_record (registry : List Candidato)
    (nullAnswer : Bool) (s : ControllerState) :
    (on_confirma registry nullAnswer (on_branco s)).state.ledger
        = s.ledger ++ [⟨none, "BRANCO"⟩]
    ∧ (on_confirma registry nullAnswer (on_branco s)).resetScheduled = true := by
  constructor <;> simp [on_branco, on_confirma, gravar_voto]

/-- C9: firing corrige in any session state clears the digits to empty and
leaves the vote store completely unchanged. -/
theorem C9_corrige_clears_and_preserves_ledger (s : ControllerState) :
    on_corrige s = ⟨"", s.ledger⟩ := rfl

/-- C10: firing confirma while no digits are entered (`numero = ""`) performs
no ledger append and leaves the session state unchanged — the result is the
same state with no reset scheduled, a user-correctable guard rather than an
error value. -/
theorem C10_confirma_idle_rejected (registry : List Candidato) (nullAnswer : Bool)
    (s : ControllerState) (h : s.numero = "") :
    on_confirma registry nullAnswer s = ⟨s, false⟩ := by
  simp [on_confirma, h]

/-- C10 witness: the idle guard at the concrete empty session. -/
theorem C10_confirma_idle_rejected_witness :
    (ControllerState.mk "" []).numero = ""
    ∧ on_confirma demo_candidatos true ⟨"", []⟩ = ⟨⟨"", []⟩, false⟩ :=
  ⟨rfl, C10_confirma_idle_rejected demo_candidatos true ⟨"", []⟩ rfl⟩
